import Mathlib

/-!
# Goal Progress & Contribution Accounting Engine — shallow embedding

This file embeds the goal subsystem of a personal-finance tracker
(`app/services/goal_service.py`, `app/routes/goals.py`, `app/models.py`)
into Lean and proves properties of the embedded code.

Modelling conventions:

* Python `Decimal` money values are modelled as `ℚ`.  All additions,
  subtractions and multiplications performed by the code on values at the
  schema's scale (`Numeric(10, 2)` amounts, `Numeric(3, 2)` rates) are exact
  in `Decimal`'s 28-significant-digit context, so `ℚ` models them exactly.
  The two `Decimal` divisions are modelled as exact rational division; the
  28-significant-digit rounding they perform sits far below the granularity
  of the 2-decimal rounding (resp. the binary64 rounding) that the code
  applies to their results afterwards.
* `round(x, 2)` on a `Decimal` rounds half-to-even to 2 decimal places
  (`round2` below, built on `rhe`, round-half-even to an integer).
* `months_needed = ceil(float(remaining / suggested))` first converts the
  decimal quotient to a binary64 double (`floatRound` below: round to
  nearest, ties to even, 53-bit significand, no overflow modelled) and only
  then takes the ceiling.
* `datetime` values are abstracted to month offsets from `now`:
  `estimated_completion_date` is `Option ℤ`, `some k` meaning
  `now + relativedelta(months=k)` and `none` meaning Python `None`.
* The database session is dropped: functions take the values the code reads
  (the goal's fields, the ledger of contribution amounts for the goal, the
  monthly income, the active-goal count) as explicit arguments, and return
  the values the code writes.
-/

/-- Round a rational to the nearest integer, ties to even.  This is the
rounding used both by `round(Decimal, 2)` (`ROUND_HALF_EVEN`) and by the
`Decimal`-to-`float` conversion. -/
def rhe (q : ℚ) : ℤ :=
  if q - (⌊q⌋ : ℚ) < 1/2 then ⌊q⌋
  else if (1:ℚ)/2 < q - (⌊q⌋ : ℚ) then ⌊q⌋ + 1
  else if ⌊q⌋ % 2 = 0 then ⌊q⌋ else ⌊q⌋ + 1

/-- Python `round(x, 2)` on `Decimal`: round half-to-even to 2 decimals. -/
def round2 (q : ℚ) : ℚ := (rhe (q * 100) : ℚ) / 100

/-- Fuelled binary logarithm: `log2floorAux fuel q` computes `⌊log₂ q⌋` for
`0 < q` as long as the exponent magnitude stays below `fuel`. -/
def log2floorAux : ℕ → ℚ → ℤ
  | 0, _ => 0
  | fuel + 1, q =>
    if 2 ≤ q then log2floorAux fuel (q / 2) + 1
    else if q < 1 then log2floorAux fuel (q * 2) - 1
    else 0

/-- `⌊log₂ q⌋` for positive `q`; 4400 units of fuel cover every exponent a
binary64 double can carry. -/
def log2floor (q : ℚ) : ℤ := log2floorAux 4400 q

/-- Exponent of the unit in the last place of the binary64 value nearest a
positive `q`: 52 below the leading binary digit, floored at the subnormal
limit `2 ^ (-1074)`. -/
def floatScale (q : ℚ) : ℤ := max (log2floor q - 52) (-1074)

/-- `2 ^ sc` for an integer exponent `sc`, as a rational. -/
def pow2z (sc : ℤ) : ℚ :=
  if 0 ≤ sc then ((2 ^ sc.toNat : ℤ) : ℚ) else 1 / ((2 ^ (-sc).toNat : ℤ) : ℚ)

/-- CPython `float(Decimal)`: correctly rounded conversion to binary64
(round to nearest, ties to even; 53-bit significand, subnormals below
`2 ^ (-1074)`).  Overflow to infinity is not modelled; every quotient this
file evaluates is far below the overflow threshold. -/
def floatRound (q : ℚ) : ℚ :=
  if q ≤ 0 then q
  else pow2z (floatScale q) * (rhe (q / pow2z (floatScale q)) : ℚ)

/-- `app/models.py`, `GoalStatus`: enum with values active/completed/paused. -/
inductive GoalStatus where
  | active
  | paused
  | completed
deriving DecidableEq

/-- Error kinds raised by the goal routes (`HTTPException` payloads). -/
inductive GoalErr where
  | GoalNotActive
  | InvalidStatus
  | NotFound
deriving DecidableEq

/-- The part of the `Goal` row the lifecycle operations read and write. -/
structure GoalRec where
  status : GoalStatus
  target : ℚ
deriving DecidableEq

/-- `get_goal_contributions`: sum of the goal's contribution amounts
(`SUM` over the `goal_contributions` rows of the goal; `0.00` when empty). -/
def sumLedger (l : List ℚ) : ℚ := l.sum

/-- The dict returned by `calculate_goal_progress`. -/
structure GoalProjection where
  monthly_income : ℚ
  suggested_monthly_contribution : ℚ
  total_contributed : ℚ
  remaining_amount : ℚ
  months_needed : ℤ
  estimated_completion_date : Option ℤ
  progress_percentage : ℚ
  is_achievable : Bool
deriving DecidableEq

/-- `goal_service.py` line 98-99: a non-positive active-goal count is
replaced by 1 before dividing. -/
def effectiveCount (active_goals_count : ℤ) : ℤ :=
  if active_goals_count ≤ 0 then 1 else active_goals_count

/-- `goal_service.py` lines 102-104:
`suggested_monthly = (monthly_income * savings_rate) / active_goals_count`
after the count fallback. -/
def suggestedMonthly (savings_rate monthly_income : ℚ) (active_goals_count : ℤ) : ℚ :=
  monthly_income * savings_rate / ((effectiveCount active_goals_count : ℤ) : ℚ)

/-- `goal_service.py` lines 107-109: `remaining = target - contributed`,
reset to `0.00` when negative (main branch only). -/
def remainingClamped (target total_contributed : ℚ) : ℚ :=
  if target - total_contributed < 0 then 0 else target - total_contributed

/-- `goal_service.py` lines 84 and 112:
`progress = (total_contributed / target) * 100 if target > 0 else 0`.
Note the code does not clamp the numerator at `target`. -/
def progressPct (target total_contributed : ℚ) : ℚ :=
  if 0 < target then total_contributed / target * 100 else 0

/-- `goal_service.py` lines 115-122, the `months_needed` arm:
`ceil(float(remaining / suggested))` when both are positive, else 0. -/
def monthsNeeded (remaining suggested : ℚ) : ℤ :=
  if 0 < suggested ∧ 0 < remaining then ⌈floatRound (remaining / suggested)⌉ else 0

/-- `goal_service.py` lines 115-123, the `estimated_completion_date` arm:
`now + relativedelta(months=months_needed)` (a positive month offset),
`now` when the remaining amount is already zero, `None` otherwise. -/
def completionDate (remaining suggested : ℚ) : Option ℤ :=
  if 0 < suggested ∧ 0 < remaining then some ⌈floatRound (remaining / suggested)⌉
  else if remaining ≤ 0 then some 0
  else none

/-- `goal_service.py` lines 82-95: the dict returned when
`monthly_income <= 0`. -/
def noIncomeProjection (target total_contributed : ℚ) : GoalProjection :=
  { monthly_income := 0
    suggested_monthly_contribution := 0
    total_contributed := round2 total_contributed
    remaining_amount := round2 (target - total_contributed)
    months_needed := 0
    estimated_completion_date := none
    progress_percentage := round2 (progressPct target total_contributed)
    is_achievable := false }

/-- `calculate_goal_progress(db, goal, monthly_income, active_goals_count)`.
`target` and `savings_rate` are the goal's columns; `total_contributed` is
the value `get_goal_contributions(db, goal.id)` returns. -/
def calcGoalProgress (target savings_rate total_contributed monthly_income : ℚ)
    (active_goals_count : ℤ) : GoalProjection :=
  if monthly_income ≤ 0 then noIncomeProjection target total_contributed
  else
    { monthly_income := monthly_income
      suggested_monthly_contribution :=
        round2 (suggestedMonthly savings_rate monthly_income active_goals_count)
      total_contributed := round2 total_contributed
      remaining_amount := round2 (remainingClamped target total_contributed)
      months_needed :=
        monthsNeeded (remainingClamped target total_contributed)
          (suggestedMonthly savings_rate monthly_income active_goals_count)
      estimated_completion_date :=
        completionDate (remainingClamped target total_contributed)
          (suggestedMonthly savings_rate monthly_income active_goals_count)
      progress_percentage := round2 (progressPct target total_contributed)
      is_achievable := true }

/-- `check_and_complete_goal(db, goal)`: flips an active goal to completed
once its ledger total reaches the target; returns whether it did. -/
def check_and_complete_goal (g : GoalRec) (total_contributed : ℚ) : GoalRec × Bool :=
  if g.target ≤ total_contributed ∧ g.status = GoalStatus.active then
    ({ g with status := GoalStatus.completed }, true)
  else (g, false)

/-- `contribute_to_goal` (`routes/goals.py` lines 265-321), goal-local part:
reject unless active, append the amount to the goal's ledger, then run
`check_and_complete_goal` on the new total.  Returns the updated goal row,
the updated ledger, and the `goal_completed` flag. -/
def contribute_to_goal (g : GoalRec) (ledger : List ℚ) (amount : ℚ) :
    Except GoalErr (GoalRec × List ℚ × Bool) :=
  if g.status ≠ GoalStatus.active then Except.error GoalErr.GoalNotActive
  else
    let ledger' := ledger ++ [amount]
    let res := check_and_complete_goal g (sumLedger ledger')
    Except.ok (res.1, ledger', res.2)

/-- The goal's ledger after a `contribute_to_goal` call: unchanged when the
call raises (the row is never inserted). -/
def ledgerAfterContribute (g : GoalRec) (ledger : List ℚ) (amount : ℚ) : List ℚ :=
  match contribute_to_goal g ledger amount with
  | Except.ok r => r.2.1
  | Except.error _ => ledger

/-- The goal's status after a `contribute_to_goal` call. -/
def statusAfterContribute (g : GoalRec) (ledger : List ℚ) (amount : ℚ) : GoalStatus :=
  match contribute_to_goal g ledger amount with
  | Except.ok r => r.1.status
  | Except.error _ => g.status

/-- `delete_contribution` (`routes/goals.py` lines 375-410), goal-local
part: remove the `i`-th ledger entry (404 when absent), then revert a
completed goal to active when the recomputed total falls below target. -/
def delete_contribution (g : GoalRec) (ledger : List ℚ) (i : ℕ) :
    Except GoalErr (GoalRec × List ℚ) :=
  if i < ledger.length then
    let ledger' := ledger.eraseIdx i
    let g' :=
      if g.status = GoalStatus.completed ∧ sumLedger ledger' < g.target then
        { g with status := GoalStatus.active }
      else g
    Except.ok (g', ledger')
  else Except.error GoalErr.NotFound

/-- The goal's status after a `delete_contribution` call. -/
def statusAfterDelete (g : GoalRec) (ledger : List ℚ) (i : ℕ) : GoalStatus :=
  match delete_contribution g ledger i with
  | Except.ok r => r.1.status
  | Except.error _ => g.status

/-- `GoalStatus(string)` in `update_goal`: enum lookup by value,
`ValueError` (hence the 400 `InvalidStatus` response) on any other string. -/
def parseStatus (s : String) : Option GoalStatus :=
  if s = "active" then some GoalStatus.active
  else if s = "completed" then some GoalStatus.completed
  else if s = "paused" then some GoalStatus.paused
  else none

/-- The status-update arm of `update_goal` (`routes/goals.py` lines
132-139): parse the requested status and assign it unconditionally. -/
def update_goal_status (g : GoalRec) (s : String) : Except GoalErr GoalRec :=
  match parseStatus s with
  | some st => Except.ok { g with status := st }
  | none => Except.error GoalErr.InvalidStatus

/-- `pause_goal` (`routes/goals.py` lines 204-235): sets `paused`
unconditionally, whatever the current status. -/
def pause_goal (g : GoalRec) : GoalRec := { g with status := GoalStatus.paused }

/-- `resume_goal` (`routes/goals.py` lines 238-260): sets `active`
unconditionally. -/
def resume_goal (g : GoalRec) : GoalRec := { g with status := GoalStatus.active }

/-- `mark_goal_complete` (`routes/goals.py` lines 170-201): sets
`completed` unconditionally. -/
def mark_goal_complete (g : GoalRec) : GoalRec := { g with status := GoalStatus.completed }

/-- The transition set the specification permits
(active→paused, paused→active, active→completed, completed→active). -/
def permittedTransition : GoalStatus → GoalStatus → Bool
  | GoalStatus.active, GoalStatus.paused => true
  | GoalStatus.paused, GoalStatus.active => true
  | GoalStatus.active, GoalStatus.completed => true
  | GoalStatus.completed, GoalStatus.active => true
  | _, _ => false

/-- A goal row together with its contribution ledger, as read by
`get_all_goals_with_progress`. -/
structure GoalFull where
  status : GoalStatus
  target : ℚ
  savings_rate : ℚ
  contributions : List ℚ

/-- The filter `Goal.status == GoalStatus.active` used both by
`get_active_goals_count` and by the default goal query. -/
def isActiveGoal (g : GoalFull) : Bool := decide (g.status = GoalStatus.active)

/-- The dict returned by `get_all_goals_with_progress`. -/
structure AllGoalsResult where
  monthly_income : ℚ
  total_savings_pool : ℚ
  active_goals_count : ℕ
  total_contributed_all_goals : ℚ
  goals : List GoalProjection

/-- `get_all_goals_with_progress(db, user_id, include_inactive)`
(`goal_service.py` lines 157-203).  `goals` is the user's goal list with
each goal's ledger; `monthly_income` is the Income Aggregator's result.
The `order_by(created_at.desc())` of the query only permutes the list and
is left out; the list is taken in query order. -/
def allGoalsWithProgress (goals : List GoalFull) (monthly_income : ℚ)
    (include_inactive : Bool) : AllGoalsResult :=
  let active_goals_count := (goals.filter isActiveGoal).length
  let filtered := if include_inactive then goals else goals.filter isActiveGoal
  let projs := filtered.map fun g =>
    calcGoalProgress g.target g.savings_rate (sumLedger g.contributions)
      monthly_income (active_goals_count : ℤ)
  let total_contributed_all := (projs.map fun p => p.total_contributed).sum
  let default_rate : ℚ :=
    match filtered with
    | [] => 1/5
    | g :: _ => g.savings_rate
  { monthly_income := monthly_income
    total_savings_pool := round2 (monthly_income * default_rate)
    active_goals_count := active_goals_count
    total_contributed_all_goals := round2 total_contributed_all
    goals := projs }

/-! ## Basic facts about the rounding helpers -/

theorem rhe_intCast (k : ℤ) : rhe (k : ℚ) = k := by
  norm_num [rhe]

theorem rhe_eq_floor {q : ℚ} (h : q - (⌊q⌋ : ℚ) < 1/2) : rhe q = ⌊q⌋ := by
  rw [rhe, if_pos h]

theorem rhe_nonneg {q : ℚ} (h : 0 ≤ q) : 0 ≤ rhe q := by
  have hf : (0:ℤ) ≤ ⌊q⌋ := Int.floor_nonneg.mpr h
  rw [rhe]
  split_ifs <;> omega

theorem rhe_le_intCast {q : ℚ} {k : ℤ} (h : q ≤ (k : ℚ)) : rhe q ≤ k := by
  have hf : ⌊q⌋ ≤ k := by
    have := Int.floor_le_floor h
    rwa [Int.floor_intCast] at this
  have hh : ¬ q - (⌊q⌋ : ℚ) < 1/2 → ⌊q⌋ + 1 ≤ k := by
    intro h1
    have h2 : (⌊q⌋ : ℚ) + 1/2 ≤ q := by linarith [not_lt.mp h1]
    have h3 : (⌊q⌋ : ℚ) < (k : ℚ) := by linarith
    have h4 : ⌊q⌋ < k := by exact_mod_cast h3
    omega
  rw [rhe]
  split_ifs with h1 h2 h3
  · exact hf
  · exact hh h1
  · exact hf
  · exact hh h1

theorem round2_intCast (k : ℤ) : round2 (k : ℚ) = (k : ℚ) := by
  have h : (k : ℚ) * 100 = ((k * 100 : ℤ) : ℚ) := by push_cast; ring
  rw [round2, h, rhe_intCast]
  push_cast
  ring

theorem round2_int_div100 (k : ℤ) : round2 ((k : ℚ) / 100) = (k : ℚ) / 100 := by
  have h : (k : ℚ) / 100 * 100 = (k : ℚ) := by field_simp
  rw [round2, h, rhe_intCast]

theorem round2_nonneg {q : ℚ} (h : 0 ≤ q) : 0 ≤ round2 q := by
  have h1 : (0:ℤ) ≤ rhe (q * 100) := rhe_nonneg (by nlinarith)
  have h2 : (0:ℚ) ≤ (rhe (q * 100) : ℚ) := by exact_mod_cast h1
  rw [round2]
  positivity

theorem round2_le_100 {q : ℚ} (h : q ≤ 100) : round2 q ≤ 100 := by
  have h1 : q * 100 ≤ ((10000 : ℤ) : ℚ) := by push_cast; nlinarith
  have h2 : rhe (q * 100) ≤ 10000 := rhe_le_intCast h1
  have h3 : (rhe (q * 100) : ℚ) ≤ 10000 := by exact_mod_cast h2
  rw [round2]
  linarith

theorem sum_map_round2 (l : List ℚ) : ∃ k : ℤ, (l.map round2).sum = (k : ℚ) / 100 := by
  induction l with
  | nil => exact ⟨0, by simp⟩
  | cons a t ih =>
    obtain ⟨k, hk⟩ := ih
    refine ⟨rhe (a * 100) + k, ?_⟩
    rw [List.map_cons, List.sum_cons, hk, round2]
    push_cast
    ring

theorem round2_sum_map_round2 (l : List ℚ) :
    round2 ((l.map round2).sum) = (l.map round2).sum := by
  obtain ⟨k, hk⟩ := sum_map_round2 l
  rw [hk, round2_int_div100]

/-! ## Characterisation of the binary64 rounding helpers on the ranges used -/

theorem log2floorAux_eq (e : ℕ) :
    ∀ (fuel : ℕ) (q : ℚ), e < fuel → (2:ℚ) ^ e ≤ q → q < 2 ^ (e + 1) →
      log2floorAux fuel q = (e : ℤ) := by
  induction e with
  | zero =>
    intro fuel q hf h1 h2
    match fuel, hf with
    | fuel + 1, _ =>
      have hn2 : ¬ (2:ℚ) ≤ q := by
        norm_num at h2
        linarith
      have hn1 : ¬ q < 1 := by
        norm_num at h1
        linarith
      rw [log2floorAux, if_neg hn2, if_neg hn1]
      norm_num
  | succ e ih =>
    intro fuel q hf h1 h2
    match fuel, hf with
    | fuel + 1, hf =>
      have h2q : (2:ℚ) ≤ q := by
        calc (2:ℚ) = 2 ^ 1 := by norm_num
        _ ≤ 2 ^ (e + 1) := by
          apply pow_le_pow_right (by norm_num)
          omega
        _ ≤ q := h1
      rw [log2floorAux, if_pos h2q, ih fuel (q / 2) (by omega) ?_ ?_]
      · push_cast; ring
      · rw [le_div_iff (by norm_num : (0:ℚ) < 2)]
        calc (2:ℚ) ^ e * 2 = 2 ^ (e + 1) := by ring
        _ ≤ q := h1
      · rw [div_lt_iff (by norm_num : (0:ℚ) < 2)]
        calc q < 2 ^ (e + 1 + 1) := h2
        _ = 2 ^ (e + 1) * 2 := by ring

theorem log2floor_eq {q : ℚ} (e : ℕ) (he : e < 4400) (h1 : (2:ℚ) ^ e ≤ q)
    (h2 : q < 2 ^ (e + 1)) : log2floor q = (e : ℤ) :=
  log2floorAux_eq e 4400 q he h1 h2

theorem floatRound_of_exp52 {q : ℚ} (h1 : (2:ℚ) ^ (52:ℕ) ≤ q) (h2 : q < 2 ^ (53:ℕ)) :
    floatRound q = (rhe q : ℚ) := by
  have hq : 0 < q := lt_of_lt_of_le (by positivity) h1
  have hl : log2floor q = ((52:ℕ) : ℤ) := log2floor_eq 52 (by norm_num) h1 h2
  have hs : floatScale q = 0 := by
    rw [floatScale, hl]
    norm_num
  rw [floatRound, if_neg (not_le.mpr hq), hs]
  norm_num [pow2z]

theorem floatRound_of_small_exp {q : ℚ} (e : ℕ) (he : e < 52) (h1 : (2:ℚ) ^ e ≤ q)
    (h2 : q < 2 ^ (e + 1)) :
    floatRound q = (rhe (q * 2 ^ (52 - e)) : ℚ) / 2 ^ (52 - e) := by
  have hq : 0 < q := lt_of_lt_of_le (by positivity) h1
  have hl : log2floor q = (e : ℤ) := log2floor_eq e (by omega) h1 h2
  have hs : floatScale q = (e : ℤ) - 52 := by
    rw [floatScale, hl]
    apply max_eq_left
    omega
  have hneg : ¬ (0:ℤ) ≤ (e : ℤ) - 52 := by omega
  have htn : ((-((e:ℤ) - 52)).toNat) = 52 - e := by omega
  have hp : pow2z (floatScale q) = 1 / (2 ^ (52 - e) : ℚ) := by
    rw [hs, pow2z, if_neg hneg, htn]
    push_cast
    ring
  rw [floatRound, if_neg (not_le.mpr hq), hp]
  have hdiv : q / (1 / (2 ^ (52 - e) : ℚ)) = q * 2 ^ (52 - e) := by
    field_simp
  rw [hdiv]
  ring

/-! ## Concrete evaluations of the binary64 rounding -/

theorem floatRound_625 : floatRound ((50000:ℚ) / 8000) = 25/4 := by
  have h1 : (2:ℚ) ^ (2:ℕ) ≤ 50000 / 8000 := by norm_num
  have h2 : (50000:ℚ) / 8000 < 2 ^ (2 + 1 : ℕ) := by norm_num
  rw [floatRound_of_small_exp 2 (by norm_num) h1 h2]
  have harg : (50000:ℚ) / 8000 * 2 ^ ((52:ℕ) - 2) = ((7036874417766400 : ℤ) : ℚ) := by
    norm_num
  rw [harg, rhe_intCast]
  norm_num

theorem floatRound_bigQuotient :
    floatRound ((15000000100000000:ℚ) / 3) = ((5000000033333333 : ℤ) : ℚ) := by
  have h1 : (2:ℚ) ^ (52:ℕ) ≤ 15000000100000000 / 3 := by norm_num
  have h2 : (15000000100000000:ℚ) / 3 < 2 ^ (53:ℕ) := by norm_num
  rw [floatRound_of_exp52 h1 h2]
  have hf : ⌊(15000000100000000:ℚ) / 3⌋ = 5000000033333333 := by
    rw [Int.floor_eq_iff]
    constructor
    · push_cast
      norm_num
    · push_cast
      norm_num
  have hfr : (15000000100000000:ℚ) / 3 - (⌊(15000000100000000:ℚ) / 3⌋ : ℚ) < 1/2 := by
    rw [hf]
    push_cast
    norm_num
  rw [rhe_eq_floor hfr, hf]

/-! ## Field projections of `calcGoalProgress` -/

theorem calc_total_contributed_eq (t r c m : ℚ) (n : ℤ) :
    (calcGoalProgress t r c m n).total_contributed = round2 c := by
  rw [calcGoalProgress]
  split_ifs <;> rfl

theorem calc_progress_eq (t r c m : ℚ) (n : ℤ) :
    (calcGoalProgress t r c m n).progress_percentage = round2 (progressPct t c) := by
  rw [calcGoalProgress]
  split_ifs <;> rfl

/-! ## C1 -/

/-- C1 counterexample: with target 100 and 200 contributed (income 1000, one
active goal), `calculate_goal_progress` reports a progress percentage of 200,
so the claimed clamped formula `min(contributed, target)/target*100` and the
claimed `[0, 100]` bound are both violated. -/
theorem c1_counterexample_progress_exceeds_100 :
    (calcGoalProgress 100 (1/5) 200 1000 1).progress_percentage = 200 ∧
    ¬ (calcGoalProgress 100 (1/5) 200 1000 1).progress_percentage ≤ 100 := by
  have h : (calcGoalProgress 100 (1/5) 200 1000 1).progress_percentage = 200 := by
    rw [calc_progress_eq, progressPct, if_pos (by norm_num : (0:ℚ) < 100)]
    rw [show (200:ℚ) / 100 * 100 = ((200:ℤ) : ℚ) by norm_num, round2_intCast]
    norm_num
  refine ⟨h, ?_⟩
  rw [h]
  norm_num

/-- C1 (amended): for every goal with positive target and nonnegative
contributions, `progress_percentage` equals `contributed / target * 100`
rounded to 2 decimals with no clamping; it is always nonnegative, and it is
at most 100 whenever contributions do not exceed the target.  When they do,
it can exceed 100 (the counterexample shows 200.00), so the claimed
`[0, 100]` bound does not hold in general. -/
theorem c1_progress_formula_and_bounds (t r c m : ℚ) (n : ℤ) (ht : 0 < t) (hc : 0 ≤ c) :
    (calcGoalProgress t r c m n).progress_percentage = round2 (c / t * 100) ∧
    0 ≤ (calcGoalProgress t r c m n).progress_percentage ∧
    (c ≤ t → (calcGoalProgress t r c m n).progress_percentage ≤ 100) := by
  have hp : (calcGoalProgress t r c m n).progress_percentage = round2 (c / t * 100) := by
    rw [calc_progress_eq, progressPct, if_pos ht]
  refine ⟨hp, ?_, ?_⟩
  · rw [hp]
    exact round2_nonneg (by positivity)
  · intro hct
    rw [hp]
    apply round2_le_100
    have h1 : c / t ≤ 1 := (div_le_one ht).mpr hct
    nlinarith

/-- C1 witness: the amended statement evaluated at target 100, contributed 50,
income 1000, one active goal. -/
theorem c1_progress_formula_and_bounds_witness :
    (calcGoalProgress 100 (1/5) 50 1000 1).progress_percentage = round2 ((50:ℚ) / 100 * 100) ∧
    0 ≤ (calcGoalProgress 100 (1/5) 50 1000 1).progress_percentage ∧
    (calcGoalProgress 100 (1/5) 50 1000 1).progress_percentage ≤ 100 := by
  have h := c1_progress_formula_and_bounds 100 (1/5) 50 1000 1 (by norm_num) (by norm_num)
  exact ⟨h.1, h.2.1, h.2.2 (by norm_num)⟩

/-! ## C6 -/

/-- C6 counterexample: in the no-income branch (income 0) with target 100 and
150 contributed, `remaining_amount` is -50, not `max(target - contributed, 0)`,
so the claimed nonnegativity fails. -/
theorem c6_counterexample_negative_remaining :
    (calcGoalProgress 100 (1/5) 150 0 1).remaining_amount = -50 ∧
    ¬ 0 ≤ (calcGoalProgress 100 (1/5) 150 0 1).remaining_amount := by
  have h : (calcGoalProgress 100 (1/5) 150 0 1).remaining_amount = -50 := by
    rw [calcGoalProgress, if_pos (le_refl (0:ℚ))]
    show round2 ((100:ℚ) - 150) = -50
    rw [show (100:ℚ) - 150 = ((-50:ℤ) : ℚ) by norm_num, round2_intCast]
    norm_num
  refine ⟨h, ?_⟩
  rw [h]
  norm_num

/-- C6 (amended): in the positive-income branch `remaining_amount` equals
`max(target - contributed, 0)` (rounded to 2 decimals) and is nonnegative;
in the no-income branch it is the unclamped `target - contributed`, which
is negative whenever contributions exceed the target. -/
theorem c6_remaining_amount (t r c m : ℚ) (n : ℤ) :
    (0 < m → (calcGoalProgress t r c m n).remaining_amount = round2 (max (t - c) 0) ∧
      0 ≤ (calcGoalProgress t r c m n).remaining_amount) ∧
    (m ≤ 0 → (calcGoalProgress t r c m n).remaining_amount = round2 (t - c)) := by
  constructor
  · intro hm
    have hne : ¬ m ≤ 0 := not_le.mpr hm
    have hrc : remainingClamped t c = max (t - c) 0 := by
      rw [remainingClamped]
      split_ifs with h
      · exact (max_eq_right h.le).symm
      · exact (max_eq_left (not_lt.mp h)).symm
    have h1 : (calcGoalProgress t r c m n).remaining_amount = round2 (remainingClamped t c) := by
      rw [calcGoalProgress, if_neg hne]
    constructor
    · rw [h1, hrc]
    · rw [h1]
      apply round2_nonneg
      rw [remainingClamped]
      split_ifs with h
      · exact le_refl 0
      · linarith [not_lt.mp h]
  · intro hm
    rw [calcGoalProgress, if_pos hm]
    rfl

/-- C6 witness: the positive-income conjunct evaluated at target 100,
contributed 30, income 1000, two active goals. -/
theorem c6_remaining_amount_witness :
    (calcGoalProgress 100 (1/5) 30 1000 2).remaining_amount = round2 (max ((100:ℚ) - 30) 0) ∧
    0 ≤ (calcGoalProgress 100 (1/5) 30 1000 2).remaining_amount :=
  (c6_remaining_amount 100 (1/5) 30 1000 2).1 (by norm_num)

/-! ## C7 -/

/-- C7: whenever the monthly income is nonpositive, `calculate_goal_progress`
returns the no-income dict without touching the savings-pool computation:
not achievable, zero suggested contribution, zero months needed, and a null
estimated completion date. -/
theorem c7_no_income_branch (t r c m : ℚ) (n : ℤ) (hm : m ≤ 0) :
    calcGoalProgress t r c m n = noIncomeProjection t c ∧
    (calcGoalProgress t r c m n).is_achievable = false ∧
    (calcGoalProgress t r c m n).suggested_monthly_contribution = 0 ∧
    (calcGoalProgress t r c m n).months_needed = 0 ∧
    (calcGoalProgress t r c m n).estimated_completion_date = none := by
  have h : calcGoalProgress t r c m n = noIncomeProjection t c := by
    rw [calcGoalProgress, if_pos hm]
  exact ⟨h, by rw [h]; rfl, by rw [h]; rfl, by rw [h]; rfl, by rw [h]; rfl⟩

/-- C7 witness: the no-income branch evaluated at income 0. -/
theorem c7_no_income_branch_witness :
    calcGoalProgress 100 (1/5) 50 0 1 = noIncomeProjection 100 50 ∧
    (calcGoalProgress 100 (1/5) 50 0 1).is_achievable = false ∧
    (calcGoalProgress 100 (1/5) 50 0 1).suggested_monthly_contribution = 0 ∧
    (calcGoalProgress 100 (1/5) 50 0 1).months_needed = 0 ∧
    (calcGoalProgress 100 (1/5) 50 0 1).estimated_completion_date = none :=
  c7_no_income_branch 100 (1/5) 50 0 1 (le_refl 0)

/-! ## C9 -/

/-- C9: with positive income, a nonpositive active-goal count produces
exactly the projection of count 1 — the fallback is a defined behaviour,
not an error, and no division by zero can happen. -/
theorem c9_nonpositive_count_as_one (t r c m : ℚ) (n : ℤ) (hm : 0 < m) (hn : n ≤ 0) :
    calcGoalProgress t r c m n = calcGoalProgress t r c m 1 := by
  have h : effectiveCount n = effectiveCount 1 := by
    rw [effectiveCount, effectiveCount, if_pos hn, if_neg (by norm_num : ¬ (1:ℤ) ≤ 0)]
  have hs : suggestedMonthly r m n = suggestedMonthly r m 1 := by
    rw [suggestedMonthly, suggestedMonthly, h]
  rw [calcGoalProgress, calcGoalProgress, hs]

/-- C9 witness: count -2 behaves as count 1 at a concrete input. -/
theorem c9_nonpositive_count_as_one_witness :
    calcGoalProgress 100 (1/5) 0 1000 (-2) = calcGoalProgress 100 (1/5) 0 1000 1 :=
  c9_nonpositive_count_as_one 100 (1/5) 0 1000 (-2) (by norm_num) (by norm_num)

/-! ## C2 -/

/-- C2: contributing to an active goal appends the amount to the ledger and,
in the same call, flips the goal to completed and reports true exactly when
the new total reaches the target; when the new total is still below the
target the goal stays active and false is reported. -/
theorem c2_contribute_auto_completes (g : GoalRec) (ledger : List ℚ) (amount : ℚ)
    (hact : g.status = GoalStatus.active) :
    (g.target ≤ sumLedger (ledger ++ [amount]) →
      contribute_to_goal g ledger amount =
        Except.ok ({ g with status := GoalStatus.completed }, ledger ++ [amount], true)) ∧
    (sumLedger (ledger ++ [amount]) < g.target →
      contribute_to_goal g ledger amount = Except.ok (g, ledger ++ [amount], false)) := by
  have hne : ¬ g.status ≠ GoalStatus.active := by
    rw [hact]
    exact fun hh => hh rfl
  constructor
  · intro h
    rw [contribute_to_goal, if_neg hne]
    show Except.ok ((check_and_complete_goal g (sumLedger (ledger ++ [amount]))).1, _,
      (check_and_complete_goal g (sumLedger (ledger ++ [amount]))).2) = _
    rw [check_and_complete_goal, if_pos ⟨h, hact⟩]
  · intro h
    rw [contribute_to_goal, if_neg hne]
    show Except.ok ((check_and_complete_goal g (sumLedger (ledger ++ [amount]))).1, _,
      (check_and_complete_goal g (sumLedger (ledger ++ [amount]))).2) = _
    rw [check_and_complete_goal, if_neg]
    rintro ⟨h1, -⟩
    exact absurd h1 (not_le.mpr h)

/-- C2 witness: an active goal with target 100 and 60 already contributed is
completed by a 50 contribution, with the completion flag reported. -/
theorem c2_contribute_auto_completes_witness :
    contribute_to_goal ⟨GoalStatus.active, 100⟩ [60] 50 =
      Except.ok (⟨GoalStatus.completed, 100⟩, [60, 50], true) := by
  have h := (c2_contribute_auto_completes ⟨GoalStatus.active, 100⟩ [60] 50 rfl).1
    (by simp [sumLedger]; norm_num)
  exact h

/-! ## C3 -/

/-- C3: deleting a contribution removes the entry; a completed goal whose
recomputed total falls below target reverts to active, a completed goal whose
total stays at or above target remains completed, and a goal that is not
completed never changes status on deletion. -/
theorem c3_delete_contribution_reversion (g : GoalRec) (ledger : List ℚ) (i : ℕ)
    (hi : i < ledger.length) :
    (g.status = GoalStatus.completed → sumLedger (ledger.eraseIdx i) < g.target →
      delete_contribution g ledger i =
        Except.ok ({ g with status := GoalStatus.active }, ledger.eraseIdx i)) ∧
    (g.status = GoalStatus.completed → g.target ≤ sumLedger (ledger.eraseIdx i) →
      delete_contribution g ledger i = Except.ok (g, ledger.eraseIdx i)) ∧
    (g.status ≠ GoalStatus.completed →
      delete_contribution g ledger i = Except.ok (g, ledger.eraseIdx i)) := by
  refine ⟨?_, ?_, ?_⟩
  · intro hc hlt
    rw [delete_contribution, if_pos hi]
    show Except.ok
      (if g.status = GoalStatus.completed ∧ sumLedger (ledger.eraseIdx i) < g.target then
        { g with status := GoalStatus.active } else g, ledger.eraseIdx i) = _
    rw [if_pos ⟨hc, hlt⟩]
  · intro hc hge
    rw [delete_contribution, if_pos hi]
    show Except.ok
      (if g.status = GoalStatus.completed ∧ sumLedger (ledger.eraseIdx i) < g.target then
        { g with status := GoalStatus.active } else g, ledger.eraseIdx i) = _
    rw [if_neg]
    rintro ⟨-, h2⟩
    exact absurd h2 (not_lt.mpr hge)
  · intro hnc
    rw [delete_contribution, if_pos hi]
    show Except.ok
      (if g.status = GoalStatus.completed ∧ sumLedger (ledger.eraseIdx i) < g.target then
        { g with status := GoalStatus.active } else g, ledger.eraseIdx i) = _
    rw [if_neg]
    rintro ⟨h1, -⟩
    exact hnc h1

/-- C3 witness: deleting the 50 entry of a completed goal with target 100 and
ledger [50, 60] leaves 60 < 100, so the goal reverts to active. -/
theorem c3_delete_contribution_reversion_witness :
    delete_contribution ⟨GoalStatus.completed, 100⟩ [50, 60] 0 =
      Except.ok (⟨GoalStatus.active, 100⟩, [60]) := by
  have h := (c3_delete_contribution_reversion ⟨GoalStatus.completed, 100⟩ [50, 60] 0
    (by norm_num)).1 rfl (by simp [sumLedger]; norm_num)
  exact h

/-! ## C5 -/

/-- C5: contributing to a paused or completed goal fails with GoalNotActive
and leaves the ledger — and hence the goal's total contributed — unchanged. -/
theorem c5_contribute_rejected_not_active (g : GoalRec) (ledger : List ℚ) (amount : ℚ)
    (h : g.status = GoalStatus.paused ∨ g.status = GoalStatus.completed) :
    contribute_to_goal g ledger amount = Except.error GoalErr.GoalNotActive ∧
    ledgerAfterContribute g ledger amount = ledger ∧
    sumLedger (ledgerAfterContribute g ledger amount) = sumLedger ledger := by
  have hne : g.status ≠ GoalStatus.active := by
    rcases h with h | h <;> rw [h] <;> exact fun hh => GoalStatus.noConfusion hh
  have hc : contribute_to_goal g ledger amount = Except.error GoalErr.GoalNotActive := by
    rw [contribute_to_goal, if_pos hne]
  exact ⟨hc, by rw [ledgerAfterContribute, hc], by rw [ledgerAfterContribute, hc]⟩

/-- C5 witness: contributing 10 to a paused goal with ledger [5] is rejected
and the ledger is unchanged. -/
theorem c5_contribute_rejected_not_active_witness :
    contribute_to_goal ⟨GoalStatus.paused, 100⟩ [5] 10 = Except.error GoalErr.GoalNotActive ∧
    ledgerAfterContribute ⟨GoalStatus.paused, 100⟩ [5] 10 = [5] ∧
    sumLedger (ledgerAfterContribute ⟨GoalStatus.paused, 100⟩ [5] 10) = sumLedger [5] :=
  c5_contribute_rejected_not_active ⟨GoalStatus.paused, 100⟩ [5] 10 (Or.inl rfl)

/-! ## C4 -/

/-- C4 counterexample: the pause endpoint applied to a completed goal sets
its status to paused, a transition (completed to paused) outside the
permitted set, so the claim that only permitted transitions ever occur is
false. -/
theorem c4_counterexample_completed_to_paused :
    (pause_goal ⟨GoalStatus.completed, 100⟩).status = GoalStatus.paused ∧
    permittedTransition GoalStatus.completed GoalStatus.paused = false :=
  ⟨rfl, rfl⟩

/-- C4 (amended): the automatic status changes (contribute auto-completion
and delete-contribution reversion) stay inside the permitted transition set,
and an unrecognized status string on update is rejected with InvalidStatus;
but the explicit endpoints pause/resume/complete set the requested status
unconditionally from any current status, so unpermitted transitions such as
completed to paused do occur. -/
theorem c4_engine_transitions (g : GoalRec) (ledger : List ℚ) (amount : ℚ) (i : ℕ)
    (s : String) (hs : parseStatus s = none) :
    (statusAfterContribute g ledger amount = g.status ∨
      permittedTransition g.status (statusAfterContribute g ledger amount) = true) ∧
    (statusAfterDelete g ledger i = g.status ∨
      permittedTransition g.status (statusAfterDelete g ledger i) = true) ∧
    (pause_goal g).status = GoalStatus.paused ∧
    (resume_goal g).status = GoalStatus.active ∧
    (mark_goal_complete g).status = GoalStatus.completed ∧
    update_goal_status g s = Except.error GoalErr.InvalidStatus := by
  refine ⟨?_, ?_, rfl, rfl, rfl, ?_⟩
  · by_cases hact : g.status = GoalStatus.active
    · have hne : ¬ g.status ≠ GoalStatus.active := fun hh => hh hact
      by_cases hsum : g.target ≤ sumLedger (ledger ++ [amount])
      · have hc : contribute_to_goal g ledger amount =
            Except.ok ({ g with status := GoalStatus.completed }, ledger ++ [amount], true) := by
          rw [contribute_to_goal, if_neg hne]
          show Except.ok ((check_and_complete_goal g (sumLedger (ledger ++ [amount]))).1, _,
            (check_and_complete_goal g (sumLedger (ledger ++ [amount]))).2) = _
          rw [check_and_complete_goal, if_pos ⟨hsum, hact⟩]
        rw [statusAfterContribute, hc]
        right
        rw [hact]
        rfl
      · have hc : contribute_to_goal g ledger amount =
            Except.ok (g, ledger ++ [amount], false) := by
          rw [contribute_to_goal, if_neg hne]
          show Except.ok ((check_and_complete_goal g (sumLedger (ledger ++ [amount]))).1, _,
            (check_and_complete_goal g (sumLedger (ledger ++ [amount]))).2) = _
          rw [check_and_complete_goal, if_neg]
          rintro ⟨h1, -⟩
          exact hsum h1
        rw [statusAfterContribute, hc]
        left
        rfl
    · rw [statusAfterContribute, contribute_to_goal, if_pos hact]
      left
      rfl
  · by_cases hi : i < ledger.length
    · by_cases hrev : g.status = GoalStatus.completed ∧ sumLedger (ledger.eraseIdx i) < g.target
      · have hd : delete_contribution g ledger i =
            Except.ok ({ g with status := GoalStatus.active }, ledger.eraseIdx i) := by
          rw [delete_contribution, if_pos hi]
          show Except.ok
            (if g.status = GoalStatus.completed ∧ sumLedger (ledger.eraseIdx i) < g.target then
              { g with status := GoalStatus.active } else g, ledger.eraseIdx i) = _
          rw [if_pos hrev]
        rw [statusAfterDelete, hd]
        right
        rw [hrev.1]
        rfl
      · have hd : delete_contribution g ledger i = Except.ok (g, ledger.eraseIdx i) := by
          rw [delete_contribution, if_pos hi]
          show Except.ok
            (if g.status = GoalStatus.completed ∧ sumLedger (ledger.eraseIdx i) < g.target then
              { g with status := GoalStatus.active } else g, ledger.eraseIdx i) = _
          rw [if_neg hrev]
        rw [statusAfterDelete, hd]
        left
        rfl
    · rw [statusAfterDelete, delete_contribution, if_neg hi]
      left
      rfl
  · rw [update_goal_status, hs]

/-- C4 witness: the amended statement evaluated on a completed goal with
ledger [40], a 10 contribution, deletion index 0, and the unknown status
string "archived". -/
theorem c4_engine_transitions_witness :
    (statusAfterContribute ⟨GoalStatus.completed, 100⟩ [40] 10 = GoalStatus.completed ∨
      permittedTransition GoalStatus.completed
        (statusAfterContribute ⟨GoalStatus.completed, 100⟩ [40] 10) = true) ∧
    (statusAfterDelete ⟨GoalStatus.completed, 100⟩ [40] 0 = GoalStatus.completed ∨
      permittedTransition GoalStatus.completed
        (statusAfterDelete ⟨GoalStatus.completed, 100⟩ [40] 0) = true) ∧
    (pause_goal ⟨GoalStatus.completed, 100⟩).status = GoalStatus.paused ∧
    (resume_goal ⟨GoalStatus.completed, 100⟩).status = GoalStatus.active ∧
    (mark_goal_complete ⟨GoalStatus.completed, 100⟩).status = GoalStatus.completed ∧
    update_goal_status ⟨GoalStatus.completed, 100⟩ "archived" =
      Except.error GoalErr.InvalidStatus :=
  c4_engine_transitions ⟨GoalStatus.completed, 100⟩ [40] 10 0 "archived" rfl

/-! ## C8 -/

/-- C8 counterexample: with target 1500000.01, rate 0.01, income 0.03, one
million active goals and nothing contributed, the quotient is
15000000100000000/3 = 5000000033333333.33...; the code rounds it to binary64
(a whole number here, since doubles above 2^52 are integers) before taking
the ceiling and returns 5000000033333333, while the exact-decimal ceiling
the claim specifies is 5000000033333334. -/
theorem c8_counterexample_float_ceiling :
    (calcGoalProgress (150000001/100) (1/100) 0 (3/100) 1000000).months_needed =
      5000000033333333 ∧
    ⌈remainingClamped (150000001/100) 0 / suggestedMonthly (1/100) (3/100) 1000000⌉ =
      (5000000033333334 : ℤ) ∧
    (calcGoalProgress (150000001/100) (1/100) 0 (3/100) 1000000).months_needed ≠
      ⌈remainingClamped (150000001/100) 0 / suggestedMonthly (1/100) (3/100) 1000000⌉ := by
  have hrem : remainingClamped ((150000001:ℚ)/100) 0 = 150000001/100 := by
    rw [remainingClamped]
    norm_num
  have hsug : suggestedMonthly ((1:ℚ)/100) (3/100) 1000000 = 3/10000000000 := by
    rw [suggestedMonthly, effectiveCount, if_neg (by norm_num : ¬ (1000000:ℤ) ≤ 0)]
    norm_num
  have hq : (150000001:ℚ)/100 / (3/10000000000) = 15000000100000000/3 := by norm_num
  have hme : (calcGoalProgress (150000001/100) (1/100) 0 (3/100) 1000000).months_needed =
      5000000033333333 := by
    rw [calcGoalProgress, if_neg (by norm_num : ¬ (3:ℚ)/100 ≤ 0)]
    show monthsNeeded (remainingClamped ((150000001:ℚ)/100) 0)
      (suggestedMonthly ((1:ℚ)/100) (3/100) 1000000) = _
    rw [hrem, hsug, monthsNeeded, if_pos (by constructor <;> norm_num), hq,
      floatRound_bigQuotient, Int.ceil_intCast]
  have hexact : ⌈remainingClamped ((150000001:ℚ)/100) 0 /
      suggestedMonthly ((1:ℚ)/100) (3/100) 1000000⌉ = (5000000033333334 : ℤ) := by
    rw [hrem, hsug, hq, Int.ceil_eq_iff]
    constructor
    · push_cast
      norm_num
    · push_cast
      norm_num
  refine ⟨hme, hexact, ?_⟩
  rw [hme, hexact]
  norm_num

/-- C8 (amended): with positive income, when the suggested monthly amount and
the remaining amount are both positive, months_needed is the ceiling of the
quotient remaining/suggested rounded to binary64 first (the code computes
ceil(float(...)), so for quotients at or above 2^52 the result can fall below
the exact decimal ceiling), and the completion date is now plus that many
calendar months; when the (already clamped) remaining amount is zero,
months_needed is 0 and the completion date is now; the scenario target 50000,
rate 0.20, income 40000, one active goal, nothing contributed yields a
suggested monthly contribution of 8000 and 7 months needed. -/
theorem c8_months_and_completion (t r c m : ℚ) (n : ℤ) (hm : 0 < m) :
    (0 < suggestedMonthly r m n → 0 < remainingClamped t c →
      (calcGoalProgress t r c m n).months_needed =
        ⌈floatRound (remainingClamped t c / suggestedMonthly r m n)⌉ ∧
      (calcGoalProgress t r c m n).estimated_completion_date =
        some (calcGoalProgress t r c m n).months_needed) ∧
    (remainingClamped t c ≤ 0 →
      (calcGoalProgress t r c m n).months_needed = 0 ∧
      (calcGoalProgress t r c m n).estimated_completion_date = some 0) ∧
    (calcGoalProgress 50000 (1/5) 0 40000 1).suggested_monthly_contribution = 8000 ∧
    (calcGoalProgress 50000 (1/5) 0 40000 1).months_needed = 7 := by
  have hne : ¬ m ≤ 0 := not_le.mpr hm
  have hmn : (calcGoalProgress t r c m n).months_needed =
      monthsNeeded (remainingClamped t c) (suggestedMonthly r m n) := by
    rw [calcGoalProgress, if_neg hne]
  have hcd : (calcGoalProgress t r c m n).estimated_completion_date =
      completionDate (remainingClamped t c) (suggestedMonthly r m n) := by
    rw [calcGoalProgress, if_neg hne]
  have hsug : suggestedMonthly ((1:ℚ)/5) 40000 1 = 8000 := by
    rw [suggestedMonthly, effectiveCount, if_neg (by norm_num : ¬ (1:ℤ) ≤ 0)]
    norm_num
  have hrem : remainingClamped (50000:ℚ) 0 = 50000 := by
    rw [remainingClamped]
    norm_num
  refine ⟨?_, ?_, ?_, ?_⟩
  · intro h1 h2
    constructor
    · rw [hmn, monthsNeeded, if_pos ⟨h1, h2⟩]
    · rw [hcd, completionDate, if_pos ⟨h1, h2⟩, hmn, monthsNeeded, if_pos ⟨h1, h2⟩]
  · intro h
    have hnot : ¬ (0 < suggestedMonthly r m n ∧ 0 < remainingClamped t c) := by
      rintro ⟨-, h2⟩
      linarith
    constructor
    · rw [hmn, monthsNeeded, if_neg hnot]
    · rw [hcd, completionDate, if_neg hnot, if_pos h]
  · rw [calcGoalProgress, if_neg (by norm_num : ¬ (40000:ℚ) ≤ 0)]
    show round2 (suggestedMonthly ((1:ℚ)/5) 40000 1) = 8000
    rw [hsug, show (8000:ℚ) = ((8000:ℤ) : ℚ) by norm_num, round2_intCast]
  · rw [calcGoalProgress, if_neg (by norm_num : ¬ (40000:ℚ) ≤ 0)]
    show monthsNeeded (remainingClamped (50000:ℚ) 0) (suggestedMonthly ((1:ℚ)/5) 40000 1) = 7
    rw [hrem, hsug, monthsNeeded, if_pos (by constructor <;> norm_num),
      show (50000:ℚ)/8000 = 50000/8000 from rfl, floatRound_625]
    rw [Int.ceil_eq_iff]
    constructor
    · push_cast
      norm_num
    · push_cast
      norm_num

/-- C8 witness: the positive-branch conclusion instantiated at the scenario
input (income 40000, rate 0.20, target 50000, one active goal). -/
theorem c8_months_and_completion_witness :
    (calcGoalProgress 50000 (1/5) 0 40000 1).months_needed =
      ⌈floatRound (remainingClamped 50000 0 / suggestedMonthly (1/5) 40000 1)⌉ ∧
    (calcGoalProgress 50000 (1/5) 0 40000 1).estimated_completion_date =
      some (calcGoalProgress 50000 (1/5) 0 40000 1).months_needed :=
  (c8_months_and_completion 50000 (1/5) 0 40000 1 (by norm_num)).1
    (by rw [suggestedMonthly, effectiveCount, if_neg (by norm_num : ¬ (1:ℤ) ≤ 0)]; norm_num)
    (by rw [remainingClamped]; norm_num)

/-! ## C10 -/

/-- C10: the aggregate total_contributed_all_goals returned by the all-goals
progress query equals the sum of the rounded per-goal totals of exactly the
goals in the returned filtered list: all goals when include_inactive is true,
only the active ones otherwise — so contributions to paused or completed
goals are excluded from the aggregate by default. -/
theorem c10_total_is_filtered_sum (goals : List GoalFull) (m : ℚ) (inc : Bool) :
    (allGoalsWithProgress goals m inc).total_contributed_all_goals =
      ((if inc then goals else goals.filter isActiveGoal).map
        fun g => round2 (sumLedger g.contributions)).sum := by
  have hfield : (allGoalsWithProgress goals m inc).total_contributed_all_goals =
      round2 ((((if inc then goals else goals.filter isActiveGoal).map fun g =>
        calcGoalProgress g.target g.savings_rate (sumLedger g.contributions) m
          ((goals.filter isActiveGoal).length : ℤ)).map
        fun p => p.total_contributed).sum) := by
    rw [allGoalsWithProgress]
  rw [hfield, List.map_map]
  have hcomp : ((fun p : GoalProjection => p.total_contributed) ∘ fun g : GoalFull =>
      calcGoalProgress g.target g.savings_rate (sumLedger g.contributions) m
        ((goals.filter isActiveGoal).length : ℤ)) =
      fun g : GoalFull => round2 (sumLedger g.contributions) := by
    funext g
    exact calc_total_contributed_eq g.target g.savings_rate (sumLedger g.contributions) m _
  rw [hcomp]
  have hmm : ((if inc then goals else goals.filter isActiveGoal).map
      fun g : GoalFull => round2 (sumLedger g.contributions)) =
      (((if inc then goals else goals.filter isActiveGoal).map
        fun g : GoalFull => sumLedger g.contributions).map round2) := by
    rw [List.map_map]
    rfl
  rw [hmm, round2_sum_map_round2]
